import Mathlib

/-!
Verification of the Medallion staged-ingestion and pipeline-health core.

This file gives a shallow embedding in Lean 4 of the parts of the repository
that the specification's claims are about, and proves (or refutes) each claim
against that embedding:

* `backend/app/services/pdf_storage.py` — `PDFStorageService`
  (content-addressed PDF dedup, storage-path generation);
* `backend/app/services/bronze_storage.py` — `BronzeStorage`
  (staging store: store / get / mark-as-processed / summary / replay);
* `dagster_pipeline/assets/monitoring_assets.py` — `monitor_bronze_silver_health`
  (stage-1 health monitor);
* `dagster_pipeline/sensors/case_sensor.py` — `new_case_sensor`;
* `dagster_pipeline/assets/bronze_assets.py` — `bronze_wi_data`,
  `bronze_interview_data` (optional-source ingestion assets);
* `backend/app/routers/dagster_extraction.py` — `get_extraction_status`.

Database tables are modelled as insertion-ordered lists of records; the
Supabase client's fallibility is modelled by an explicit `avail : Bool` flag
(`false` = the backing store is unreachable, every `execute()` raises), and a
Python function that may raise an uncaught exception is embedded as a function
into `Except String`.  Timestamps are opaque (`Nat` or `String`) parameters.
The SHA-256 content hash is an abstract parameter `hashFn`: every theorem about
dedup holds for an arbitrary hash function.
-/

namespace Medallion

/-- Python `dict` assignment `m[k] = v` on a string-keyed dict, modelled on an
insertion-ordered association list: an existing key keeps its position and gets
the new value, a new key is appended at the end. -/
def upsert {α : Type} (m : List (String × α)) (k : String) (v : α) :
    List (String × α) :=
  if m.any (fun p => p.1 == k) then
    m.map (fun p => if p.1 == k then (k, v) else p)
  else
    m ++ [(k, v)]

/-! ## PDFStorageService (`backend/app/services/pdf_storage.py`) -/

/-- Python `s.replace(old, new)` for a single-character pattern, as used by
`generate_storage_path` to sanitize the case id (`.replace('/', '_')`). -/
def replaceChar (old new : Char) (s : String) : String :=
  String.mk (s.data.map (fun c => if c = old then new else c))

/-- Python `s.upper()` restricted to ASCII, as used on `document_type`
(document types are ASCII: AT, WI, TRT, Interview, Other). -/
def upperAscii (s : String) : String :=
  String.mk (s.data.map Char.toUpper)

/-- Splitting a character list at every `'/'`, keeping empty components, as in
POSIX-path parsing. -/
def splitSlash : List Char → List (List Char)
  | [] => [[]]
  | c :: cs =>
    if c = '/' then [] :: splitSlash cs
    else
      match splitSlash cs with
      | [] => [[c]]
      | comp :: rest => (c :: comp) :: rest

/-- Python `pathlib.Path(s).name` for a POSIX path: the last component of the
path after dropping empty and `"."` components (CPython's `parse_parts` drops
exactly those), or `""` when no component remains. -/
def posixPathName (s : String) : String :=
  let comps := (splitSlash s.data).filter (fun c => !c.isEmpty && c ≠ ['.'])
  String.mk ((comps.getLast?).getD [])

/-- `PDFStorageService.generate_storage_path`: sanitize the case id (replace
`'/'` with `'_'`), uppercase the document type, keep only the final path
component of the file name, then join with `'/'`, inserting the tax year as an
extra directory level when supplied. -/
def generate_storage_path (case_id document_type file_name : String)
    (tax_year : Option String) : String :=
  let case_id := replaceChar '/' '_' case_id
  let document_type := upperAscii document_type
  let file_name := posixPathName file_name
  match tax_year with
  | some ty => case_id ++ "/" ++ document_type ++ "/" ++ ty ++ "/" ++ file_name
  | none => case_id ++ "/" ++ document_type ++ "/" ++ file_name

/-- One row of the `bronze_pdf_raw` metadata table. -/
structure PdfRecord where
  bronze_pdf_id : Nat
  case_id : String
  document_type : String
  tax_year : Option String
  form_type : Option String
  storage_path : String
  file_size_bytes : Nat
  file_name : String
  source_system : String
  source_url : Option String
  processing_status : String
  file_hash : String
  inserted_at : String
deriving Repr, DecidableEq

/-- State owned by `PDFStorageService`: the `bronze_pdf_raw` metadata table
(insertion order), the set of physical objects in the `case-pdfs` bucket
(as their storage paths), and the next surrogate id the database will assign. -/
structure PdfState where
  records : List PdfRecord
  objects : List String
  nextId : Nat
deriving Repr, DecidableEq

/-- `PDFStorageService.check_duplicate`: first `bronze_pdf_raw` row whose
`file_hash` equals the given hash, if any. -/
def check_duplicate (s : PdfState) (file_hash : String) : Option PdfRecord :=
  s.records.find? (fun r => r.file_hash == file_hash)

/-- Result dictionary returned by `PDFStorageService.upload_pdf`.  The
`file_hash` and `file_size_bytes` keys are present only in the
non-duplicate branch of the source, hence `Option`. -/
structure UploadResult where
  bronze_pdf_id : Nat
  storage_path : String
  file_hash : Option String
  file_size_bytes : Option Nat
  is_duplicate : Bool
deriving Repr, DecidableEq

/-- `PDFStorageService.upload_pdf` over an abstract content-hash function
`hashFn` (SHA-256 in the source).  Compute the hash; if `check_duplicate`
finds an existing row, return its id and path with `is_duplicate = true` and
leave the state untouched; otherwise derive the storage path, write the
physical object (a write to an already-existing path is tolerated and leaves
the object set unchanged, as the source catches the "already exists" error),
insert the metadata row, and return `is_duplicate = false`. -/
def upload_pdf (hashFn : List Nat → String) (s : PdfState)
    (file_content : List Nat) (case_id document_type file_name : String)
    (source_system : String) (source_url : Option String)
    (tax_year form_type : Option String) (now : String) :
    UploadResult × PdfState :=
  let file_hash := hashFn file_content
  match check_duplicate s file_hash with
  | some existing =>
    ({ bronze_pdf_id := existing.bronze_pdf_id
       storage_path := existing.storage_path
       file_hash := none
       file_size_bytes := none
       is_duplicate := true }, s)
  | none =>
    let storage_path := generate_storage_path case_id document_type file_name tax_year
    let objects :=
      if storage_path ∈ s.objects then s.objects else s.objects ++ [storage_path]
    let record : PdfRecord :=
      { bronze_pdf_id := s.nextId
        case_id := case_id
        document_type := upperAscii document_type
        tax_year := tax_year
        form_type := form_type
        storage_path := storage_path
        file_size_bytes := file_content.length
        file_name := file_name
        source_system := source_system
        source_url := source_url
        processing_status := "stored"
        file_hash := file_hash
        inserted_at := now }
    ({ bronze_pdf_id := s.nextId
       storage_path := storage_path
       file_hash := some file_hash
       file_size_bytes := some file_content.length
       is_duplicate := false },
     { records := s.records ++ [record]
       objects := objects
       nextId := s.nextId + 1 })

/-! ## BronzeStorage (`backend/app/services/bronze_storage.py`)

Each `bronze_*_raw` table is an insertion-ordered list of `BronzeRecord`s;
the `bronze_table` argument of the Python methods merely selects which list
the operation acts on, so the embedding works on one such list.  The
`avail : Bool` flag models reachability of the backing store: when it is
`false` every Supabase `execute()` raises, and the embedding follows each
method's `try`/`except` handling of that exception. -/

/-- Processing status of a staged record (`'pending'` / `'completed'` /
`'failed'` in the source). -/
inductive ProcessingStatus where
  | pending
  | completed
  | failed
deriving Repr, DecidableEq

/-- One row of a `bronze_*_raw` staging table. -/
structure BronzeRecord where
  bronze_id : Nat
  case_id : String
  raw_response : String
  api_endpoint : String
  created_by : String
  processing_status : ProcessingStatus
  processing_error : Option String
  inserted_at : Nat
  processed_at : Option Nat
deriving Repr, DecidableEq

/-- Message of the exception the Supabase client raises when the backing
store is unreachable. -/
def storageUnavailableMsg : String := "storage unavailable"

/-- Row inserted by `BronzeStorage.store_at_response`: status `'pending'`,
no error, no processed timestamp. -/
def storeRecord (case_id raw_response : String) (api_endpoint : Option String)
    (created_by : String) (now nextId : Nat) : BronzeRecord :=
  { bronze_id := nextId
    case_id := case_id
    raw_response := raw_response
    api_endpoint := api_endpoint.getD "/analysis/at"
    created_by := created_by
    processing_status := .pending
    processing_error := none
    inserted_at := now
    processed_at := none }

/-- Table contents after `BronzeStorage.store_at_response` inserts its row. -/
def storeUpdate (t : List BronzeRecord) (case_id raw_response : String)
    (api_endpoint : Option String) (created_by : String) (now nextId : Nat) :
    List BronzeRecord :=
  t ++ [storeRecord case_id raw_response api_endpoint created_by now nextId]

/-- `BronzeStorage.store_at_response` (the `store_wi_response` /
`store_trt_response` / `store_interview_response` variants differ only in
table and default endpoint): on success the row is inserted and its
`bronze_id` returned; when the backing store is unreachable the exception is
caught, logged, and re-raised wrapped as `Bronze storage failed for AT: …`. -/
def store_at_response (avail : Bool) (t : List BronzeRecord)
    (case_id raw_response : String) (api_endpoint : Option String)
    (created_by : String) (now nextId : Nat) :
    Except String (List BronzeRecord × Nat) :=
  if avail then
    .ok (storeUpdate t case_id raw_response api_endpoint created_by now nextId, nextId)
  else
    .error ("Bronze storage failed for AT: " ++ storageUnavailableMsg)

/-- `BronzeStorage.get_bronze_record`: first row with the given `bronze_id`,
or `None`; when the backing store is unreachable the exception is caught,
logged, and `None` is returned. -/
def get_bronze_record (avail : Bool) (t : List BronzeRecord) (bronze_id : Nat) :
    Except String (Option BronzeRecord) :=
  if avail then .ok (t.find? (fun r => r.bronze_id == bronze_id))
  else .ok none

/-- `BronzeStorage.get_bronze_by_case`: rows for the case, newest first
(descending `inserted_at`, i.e. reverse insertion order), truncated to
`limit`; when the backing store is unreachable the exception is caught,
logged, and `[]` is returned. -/
def get_bronze_by_case (avail : Bool) (t : List BronzeRecord) (case_id : String)
    (limit : Nat) : Except String (List BronzeRecord) :=
  if avail then .ok (((t.filter (fun r => r.case_id == case_id)).reverse).take limit)
  else .ok []

/-- Table contents after `BronzeStorage.mark_as_processed`: every row with
the given `bronze_id` gets the given status, the current timestamp as
`processed_at`, and the given error; other rows are unchanged. -/
def markUpdate (t : List BronzeRecord) (bronze_id : Nat)
    (status : ProcessingStatus) (error : Option String) (now : Nat) :
    List BronzeRecord :=
  t.map (fun r =>
    if r.bronze_id = bronze_id then
      { r with processing_status := status
               processed_at := some now
               processing_error := error }
    else r)

/-- `BronzeStorage.mark_as_processed`: returns `True` on success; when the
backing store is unreachable the exception is caught, logged, and `False` is
returned (the table is untouched). -/
def mark_as_processed (avail : Bool) (t : List BronzeRecord) (bronze_id : Nat)
    (status : ProcessingStatus) (error : Option String) (now : Nat) :
    Except String (List BronzeRecord × Bool) :=
  if avail then .ok (markUpdate t bronze_id status error now, true)
  else .ok (t, false)

/-- One row of the `bronze_ingestion_summary` view. -/
structure IngestionSummaryRow where
  data_type : String
  total_records : Nat
  processed : Nat
  pending : Nat
  failed : Nat
  first_ingestion : Option Nat
  last_ingestion : Option Nat
deriving Repr, DecidableEq

/-- Per-data-type entry of the dictionary built by
`BronzeStorage.get_processing_summary`. -/
structure SummaryEntry where
  total : Nat
  processed : Nat
  pending : Nat
  failed : Nat
  first_ingestion : Option Nat
  last_ingestion : Option Nat
deriving Repr, DecidableEq

/-- `BronzeStorage.get_processing_summary`: builds a dict keyed by
`data_type` from the `bronze_ingestion_summary` view rows; when the backing
store is unreachable the exception is caught, logged, and `{}` is returned. -/
def get_processing_summary (avail : Bool) (rows : List IngestionSummaryRow) :
    Except String (List (String × SummaryEntry)) :=
  if avail then
    .ok (rows.foldl
      (fun m row => upsert m row.data_type
        { total := row.total_records
          processed := row.processed
          pending := row.pending
          failed := row.failed
          first_ingestion := row.first_ingestion
          last_ingestion := row.last_ingestion }) [])
  else .ok []

/-- Filter applied by `BronzeStorage.replay_bronze_to_silver`: `bronze_id`
when given, else `case_id` when given, else all currently-failed rows. -/
def replayMatches (bronze_id : Option Nat) (case_id : Option String)
    (r : BronzeRecord) : Bool :=
  match bronze_id with
  | some bid => r.bronze_id == bid
  | none =>
    match case_id with
    | some cid => r.case_id == cid
    | none => r.processing_status == .failed

/-- Reset applied by `BronzeStorage.replay_bronze_to_silver` to each matched
row: status back to `'pending'`, `processed_at` and `processing_error`
cleared. -/
def resetForReplay (r : BronzeRecord) : BronzeRecord :=
  { r with processing_status := .pending
           processed_at := none
           processing_error := none }

/-- Table contents after `BronzeStorage.replay_bronze_to_silver`. -/
def replayUpdate (t : List BronzeRecord) (bronze_id : Option Nat)
    (case_id : Option String) : List BronzeRecord :=
  t.map (fun r => if replayMatches bronze_id case_id r then resetForReplay r else r)

/-- Number of rows the replay update affects (`len(result.data)` in the
source: the Supabase update returns every row matched by the filter). -/
def replayCount (t : List BronzeRecord) (bronze_id : Option Nat)
    (case_id : Option String) : Nat :=
  (t.filter (replayMatches bronze_id case_id)).length

/-- `BronzeStorage.replay_bronze_to_silver`: resets the selected rows to
pending and returns the count affected; when the backing store is
unreachable the exception is caught, logged, and `0` is returned (the table
is untouched). -/
def replay_bronze_to_silver (avail : Bool) (t : List BronzeRecord)
    (bronze_id : Option Nat) (case_id : Option String) :
    Except String (List BronzeRecord × Nat) :=
  if avail then .ok (replayUpdate t bronze_id case_id, replayCount t bronze_id case_id)
  else .ok (t, 0)

/-! ## Health monitoring (`dagster_pipeline/assets/monitoring_assets.py`) -/

/-- One row of the `bronze_silver_health` view read by
`monitor_bronze_silver_health`. -/
structure HealthRow where
  data_type : String
  bronze_total : Nat
  bronze_processed : Nat
  bronze_pending : Nat
  bronze_failed : Nat
  silver_records : Nat
deriving Repr, DecidableEq

/-- Health score of one row:
`bronze_processed / bronze_total * 100` when `bronze_total > 0`, else `100`
(exact rational arithmetic in place of Python floats). -/
def healthScore (row : HealthRow) : ℚ :=
  if row.bronze_total > 0 then
    (row.bronze_processed : ℚ) / (row.bronze_total : ℚ) * 100
  else 100

/-- One alert string appended by the stage-1 monitor, with the data it
carries (the source formats these as f-strings). -/
inductive HealthAlert where
  | failedRecords (data_type : String) (failed : Nat)
  | pendingBacklog (data_type : String) (pending : Nat)
  | lowScore (data_type : String) (score : ℚ)
deriving Repr, DecidableEq

/-- Alerts the stage-1 monitor appends for one row, in source order:
failed records, then a pending backlog above 5, then a health score
below 95. -/
def rowAlerts (row : HealthRow) : List HealthAlert :=
  (if row.bronze_failed > 0 then
    [HealthAlert.failedRecords row.data_type row.bronze_failed] else []) ++
  (if row.bronze_pending > 5 then
    [HealthAlert.pendingBacklog row.data_type row.bronze_pending] else []) ++
  (if healthScore row < 95 then
    [HealthAlert.lowScore row.data_type (healthScore row)] else [])

/-- Per-data-type entry of the `health_metrics` dictionary. -/
structure HealthMetric where
  bronze_total : Nat
  bronze_processed : Nat
  bronze_pending : Nat
  bronze_failed : Nat
  silver_records : Nat
  health_score : ℚ
deriving Repr, DecidableEq

/-- Metric recorded for one row by the stage-1 monitor. -/
def mkHealthMetric (row : HealthRow) : HealthMetric :=
  { bronze_total := row.bronze_total
    bronze_processed := row.bronze_processed
    bronze_pending := row.bronze_pending
    bronze_failed := row.bronze_failed
    silver_records := row.silver_records
    health_score := healthScore row }

/-- Return value of `monitor_bronze_silver_health` (the `timestamp` field,
a run id, is omitted). -/
structure StageOneReport where
  overall_health : String
  metrics : List (String × HealthMetric)
  alerts : List HealthAlert
deriving Repr, DecidableEq

/-- `monitor_bronze_silver_health` as a function of the
`bronze_silver_health` view rows: one pass over the rows accumulating the
`health_metrics` dict and the `alerts` list, then an overall verdict that is
`HEALTHY` exactly when every recorded metric's health score is at least 95. -/
def monitor_bronze_silver_health (rows : List HealthRow) : StageOneReport :=
  let acc := rows.foldl
    (fun (acc : List (String × HealthMetric) × List HealthAlert) row =>
      (upsert acc.1 row.data_type (mkHealthMetric row), acc.2 ++ rowAlerts row))
    ([], [])
  { overall_health :=
      if acc.1.all (fun p => decide (95 ≤ p.2.health_score)) then "HEALTHY"
      else "DEGRADED"
    metrics := acc.1
    alerts := acc.2 }

/-! ## Case sensor (`dagster_pipeline/sensors/case_sensor.py`) -/

/-- A case returned by the sensor's new-case query (in the source this query
result is the `new_cases` list; the checked-in template hard-codes it to
`[]` in place of the commented-out Supabase query). -/
structure NewCase where
  id : String
  case_number : String
deriving Repr, DecidableEq

/-- Per-op config carried in the run request for each of the four bronze
ingestion assets. -/
structure OpConfig where
  case_id : String
  case_number : String
deriving Repr, DecidableEq

/-- A Dagster `RunRequest` as built by `new_case_sensor`. -/
structure RunRequest where
  run_key : String
  ops : List (String × OpConfig)
  tags_case_id : String
  tags_case_number : String
  triggered_by : String
deriving Repr, DecidableEq

/-- Run request emitted for one new case: keyed `case_{id}`, configuring the
four bronze ingestion assets with the case's id and number. -/
def runRequestFor (c : NewCase) : RunRequest :=
  { run_key := "case_" ++ c.id
    ops :=
      [("bronze_at_data", { case_id := c.id, case_number := c.case_number }),
       ("bronze_wi_data", { case_id := c.id, case_number := c.case_number }),
       ("bronze_trt_data", { case_id := c.id, case_number := c.case_number }),
       ("bronze_interview_data", { case_id := c.id, case_number := c.case_number })]
    tags_case_id := c.id
    tags_case_number := c.case_number
    triggered_by := "new_case_sensor" }

/-- Outcome of one sensor evaluation: an explicit `SkipReason` or a list of
run requests. -/
inductive SensorResult where
  | skip (reason : String)
  | requests (rs : List RunRequest)
deriving Repr, DecidableEq

/-- `new_case_sensor` as a function of the persisted cursor, the new-case
query result, and the current wall-clock time.  Returns the evaluation
result together with the cursor as persisted after the evaluation: when
`new_cases` is empty the sensor returns a `SkipReason` before reaching
`context.update_cursor`, so the cursor is unchanged; otherwise it emits one
run request per case and advances the cursor to now. -/
def new_case_sensor (cursor : Option String) (new_cases : List NewCase)
    (now : String) : SensorResult × Option String :=
  let cur := cursor.getD "2024-01-01T00:00:00Z"
  if new_cases.isEmpty then
    (.skip ("No new cases since " ++ cur), cursor)
  else
    (.requests (new_cases.map runRequestFor), some (now ++ "Z"))

/-! ## Bronze ingestion assets (`dagster_pipeline/assets/bronze_assets.py`)

The optional-source assets are embedded as functions of the fetch outcome
(`Except String payload`, `.error` = the TiParser call raised) and of the
target bronze table; storage itself is modelled as reachable, since the
claims concern the fetch-failure path, which returns before any insert. -/

/-- WI payload as consumed by `bronze_wi_data` (only its `forms` list is
inspected, via `len(wi_response.get('forms', []))`). -/
structure WiPayload where
  forms : List String
deriving Repr, DecidableEq

/-- Row inserted into `bronze_wi_raw` by `bronze_wi_data` (the remaining
columns are filled by database defaults). -/
structure WiBronzeRow where
  bronze_id : Nat
  case_id : String
  raw_response : WiPayload
deriving Repr, DecidableEq

/-- Return value of `bronze_wi_data`; `processing_error` is present (and
`None`) in both the skipped and the stored branch of the source. -/
structure WiAssetResult where
  bronze_id : Option Nat
  case_id : String
  case_number : String
  form_count : Nat
  processing_status : String
  processing_error : Option String
deriving Repr, DecidableEq

/-- `bronze_wi_data`: if the TiParser WI call fails, log the error and return
`skipped` with `bronze_id = None` and `processing_error = None` without
storing anything (the error string appears only in the log); otherwise
insert the raw response into `bronze_wi_raw` and return `stored`. -/
def bronze_wi_data (fetch : Except String WiPayload)
    (case_id case_number : String) (t : List WiBronzeRow) (nextId : Nat) :
    WiAssetResult × List WiBronzeRow :=
  match fetch with
  | .error _api_error =>
    ({ bronze_id := none
       case_id := case_id
       case_number := case_number
       form_count := 0
       processing_status := "skipped"
       processing_error := none }, t)
  | .ok wi_response =>
    ({ bronze_id := some nextId
       case_id := case_id
       case_number := case_number
       form_count := wi_response.forms.length
       processing_status := "stored"
       processing_error := none },
     t ++ [{ bronze_id := nextId, case_id := case_id, raw_response := wi_response }])

/-- Interview payload: a JSON object, of which `bronze_interview_data` reads
the top-level keys (`list(interview_response.keys())`). -/
structure InterviewPayload where
  entries : List (String × String)
deriving Repr, DecidableEq

/-- Row inserted into `bronze_interview_raw` by `bronze_interview_data`. -/
structure InterviewBronzeRow where
  bronze_id : Nat
  case_id : String
  raw_response : InterviewPayload
deriving Repr, DecidableEq

/-- Return value of `bronze_interview_data`. -/
structure InterviewAssetResult where
  bronze_id : Option Nat
  case_id : String
  case_number : String
  sections_received : List String
  processing_status : String
  processing_error : Option String
deriving Repr, DecidableEq

/-- `bronze_interview_data`: if the TiParser interview call fails, return
`skipped` with `processing_error = "API error: …"` recording the failure,
without storing anything; otherwise insert the raw response into
`bronze_interview_raw` and return `stored`. -/
def bronze_interview_data (fetch : Except String InterviewPayload)
    (case_id case_number : String) (t : List InterviewBronzeRow) (nextId : Nat) :
    InterviewAssetResult × List InterviewBronzeRow :=
  match fetch with
  | .error api_error =>
    ({ bronze_id := none
       case_id := case_id
       case_number := case_number
       sections_received := []
       processing_status := "skipped"
       processing_error := some ("API error: " ++ api_error) }, t)
  | .ok interview_response =>
    ({ bronze_id := some nextId
       case_id := case_id
       case_number := case_number
       sections_received := interview_response.entries.map Prod.fst
       processing_status := "stored"
       processing_error := none },
     t ++ [{ bronze_id := nextId, case_id := case_id, raw_response := interview_response }])

/-! ## Extraction status (`backend/app/routers/dagster_extraction.py`) -/

/-- Per-table `count='exact'` results read by `get_extraction_status`
(`None` when the client reports no count, hence the Python `count or 0`). -/
structure LayerCounts where
  bronze_at : Option Nat
  bronze_wi : Option Nat
  bronze_trt : Option Nat
  bronze_interview : Option Nat
  silver_tax_years : Option Nat
  silver_income : Option Nat
  gold_employment : Option Nat
  gold_household : Option Nat
deriving Repr, DecidableEq

/-- Python `count or 0` (both `None` and `0` yield `0`). -/
def orZero (c : Option Nat) : Nat := c.getD 0

/-- Total bronze-layer record count in `get_extraction_status`. -/
def bronzeCount (c : LayerCounts) : Nat :=
  orZero c.bronze_at + orZero c.bronze_wi + orZero c.bronze_trt +
    orZero c.bronze_interview

/-- Total silver-layer record count in `get_extraction_status`. -/
def silverCount (c : LayerCounts) : Nat :=
  orZero c.silver_tax_years + orZero c.silver_income

/-- Total gold-layer record count in `get_extraction_status`. -/
def goldCount (c : LayerCounts) : Nat :=
  orZero c.gold_employment + orZero c.gold_household

/-- Overall status determined by `get_extraction_status` from the per-layer
counts (the spec names these states `not_started` / `staged_only` /
`partially_propagated` / `complete`; the code's strings for the middle two
are `bronze_only` and `silver_only`). -/
def extractionStatus (c : LayerCounts) : String :=
  if bronzeCount c = 0 then "not_started"
  else if silverCount c = 0 then "bronze_only"
  else if goldCount c = 0 then "silver_only"
  else "complete"

/-! ## Helper lemmas -/

theorem splitSlash_ne_nil (l : List Char) : splitSlash l ≠ [] := by
  induction l with
  | nil => simp [splitSlash]
  | cons c cs ih =>
    simp only [splitSlash]
    split
    · simp
    · cases h : splitSlash cs with
      | nil => simp
      | cons a b => simp

theorem splitSlash_no_slash (l : List Char) :
    ∀ comp ∈ splitSlash l, '/' ∉ comp := by
  induction l with
  | nil =>
    intro comp h
    simp [splitSlash] at h
    simp [h]
  | cons c cs ih =>
    intro comp h
    simp only [splitSlash] at h
    by_cases hc : c = '/'
    · rw [if_pos hc] at h
      rcases List.mem_cons.mp h with h' | h'
      · simp [h']
      · exact ih comp h'
    · rw [if_neg hc] at h
      cases hsc : splitSlash cs with
      | nil => exact absurd hsc (splitSlash_ne_nil cs)
      | cons a b =>
        rw [hsc] at h
        rcases List.mem_cons.mp h with h' | h'
        · subst h'
          intro hmem
          rcases List.mem_cons.mp hmem with h'' | h''
          · exact hc h''.symm
          · exact ih a (hsc ▸ List.mem_cons_self a b) h''
        · exact ih comp (hsc ▸ List.mem_cons_of_mem a h')

theorem getD_getLast?_no_slash (L : List (List Char))
    (hL : ∀ comp ∈ L, '/' ∉ comp) : '/' ∉ (L.getLast?).getD [] := by
  cases h : L.getLast? with
  | none => simp
  | some comp =>
    rcases List.mem_getLast?_eq_getLast (Option.mem_def.mpr h) with ⟨hne, heq⟩
    simpa using hL comp (heq ▸ List.getLast_mem hne)

theorem posixPathName_no_slash (s : String) :
    '/' ∉ (posixPathName s).data := by
  simp only [posixPathName]
  exact getD_getLast?_no_slash _ (fun comp hc =>
    splitSlash_no_slash s.data comp (List.mem_of_mem_filter hc))

theorem replaceChar_slash_no_slash (s : String) :
    '/' ∉ (replaceChar '/' '_' s).data := by
  unfold replaceChar
  intro hmem
  rcases List.mem_map.mp hmem with ⟨c, _, hc⟩
  by_cases h : c = '/'
  · rw [if_pos h] at hc
    exact absurd hc (by decide)
  · rw [if_neg h] at hc
    exact h hc

theorem splitSlash_append_head (l1 l2 : List Char) (h : '/' ∉ l1) :
    (splitSlash (l1 ++ '/' :: l2)).head? = some l1 := by
  induction l1 with
  | nil => simp [splitSlash]
  | cons c cs ih =>
    have hc : c ≠ '/' := fun hcc => h (hcc ▸ List.mem_cons_self c cs)
    have hcs : '/' ∉ cs := fun hmm => h (List.mem_cons_of_mem c hmm)
    have ih' := ih hcs
    simp only [List.cons_append, splitSlash, if_neg hc]
    cases hsc : splitSlash (cs ++ '/' :: l2) with
    | nil => exact absurd hsc (splitSlash_ne_nil _)
    | cons a b =>
      rw [hsc] at ih'
      simp only [List.head?_cons, Option.some.injEq] at ih'
      subst ih'
      simp

/-- C10: for every input, `generate_storage_path` returns exactly
`{case_id}/{DOCTYPE}/{file_name}` (or `{case_id}/{DOCTYPE}/{tax_year}/{file_name}`)
where the case id has every `'/'` replaced by `'_'`, the document type is
uppercased, and only the final path component of the supplied file name is
used; the sanitized case id and the final file-name component contain no
`'/'`, so the first path component of the result is always the sanitized
case id — directory components embedded in the file name cannot escape the
case prefix. -/
theorem generate_storage_path_confined
    (case_id document_type file_name : String) (tax_year : Option String) :
    generate_storage_path case_id document_type file_name tax_year =
      (match tax_year with
       | some ty =>
         replaceChar '/' '_' case_id ++ "/" ++ upperAscii document_type ++ "/" ++
           ty ++ "/" ++ posixPathName file_name
       | none =>
         replaceChar '/' '_' case_id ++ "/" ++ upperAscii document_type ++ "/" ++
           posixPathName file_name) ∧
    '/' ∉ (replaceChar '/' '_' case_id).data ∧
    '/' ∉ (posixPathName file_name).data ∧
    (splitSlash (generate_storage_path case_id document_type file_name tax_year).data).head? =
      some (replaceChar '/' '_' case_id).data := by
  refine ⟨rfl, replaceChar_slash_no_slash case_id, posixPathName_no_slash file_name, ?_⟩
  have hdata : (generate_storage_path case_id document_type file_name tax_year).data =
      (replaceChar '/' '_' case_id).data ++ '/' ::
        (match tax_year with
         | some ty =>
           (upperAscii document_type ++ "/" ++ ty ++ "/" ++ posixPathName file_name).data
         | none => (upperAscii document_type ++ "/" ++ posixPathName file_name).data) := by
    cases tax_year with
    | none => simp [generate_storage_path, String.data_append]
    | some ty => simp [generate_storage_path, String.data_append]
  rw [hdata]
  exact splitSlash_append_head _ _ (replaceChar_slash_no_slash case_id)

/-- C1: for any state holding no record of the content's hash, a first
`upload_pdf` of that content followed by a second `upload_pdf` of
byte-identical content — under arbitrary different file names, document
types, case ids and metadata — leaves both the metadata table and the
object store untouched by the second call, which returns
`is_duplicate = true` with the `bronze_pdf_id` and `storage_path` created by
the first call; exactly one metadata row with that content hash exists.
Holds for an arbitrary content-hash function. -/
theorem upload_pdf_content_dedup
    (hashFn : List Nat → String) (s : PdfState) (content : List Nat)
    (cid1 dt1 fn1 ss1 : String) (su1 : Option String) (ty1 ft1 : Option String)
    (now1 : String)
    (cid2 dt2 fn2 ss2 : String) (su2 : Option String) (ty2 ft2 : Option String)
    (now2 : String)
    (hfresh : check_duplicate s (hashFn content) = none) :
    (upload_pdf hashFn
        (upload_pdf hashFn s content cid1 dt1 fn1 ss1 su1 ty1 ft1 now1).2
        content cid2 dt2 fn2 ss2 su2 ty2 ft2 now2).1.is_duplicate = true ∧
    (upload_pdf hashFn
        (upload_pdf hashFn s content cid1 dt1 fn1 ss1 su1 ty1 ft1 now1).2
        content cid2 dt2 fn2 ss2 su2 ty2 ft2 now2).1.bronze_pdf_id =
      (upload_pdf hashFn s content cid1 dt1 fn1 ss1 su1 ty1 ft1 now1).1.bronze_pdf_id ∧
    (upload_pdf hashFn
        (upload_pdf hashFn s content cid1 dt1 fn1 ss1 su1 ty1 ft1 now1).2
        content cid2 dt2 fn2 ss2 su2 ty2 ft2 now2).1.storage_path =
      (upload_pdf hashFn s content cid1 dt1 fn1 ss1 su1 ty1 ft1 now1).1.storage_path ∧
    (upload_pdf hashFn
        (upload_pdf hashFn s content cid1 dt1 fn1 ss1 su1 ty1 ft1 now1).2
        content cid2 dt2 fn2 ss2 su2 ty2 ft2 now2).2 =
      (upload_pdf hashFn s content cid1 dt1 fn1 ss1 su1 ty1 ft1 now1).2 ∧
    ((upload_pdf hashFn s content cid1 dt1 fn1 ss1 su1 ty1 ft1 now1).2.records.filter
        (fun r => r.file_hash == hashFn content)).length = 1 := by
  have hcall1 : upload_pdf hashFn s content cid1 dt1 fn1 ss1 su1 ty1 ft1 now1 =
      ({ bronze_pdf_id := s.nextId
         storage_path := generate_storage_path cid1 dt1 fn1 ty1
         file_hash := some (hashFn content)
         file_size_bytes := some content.length
         is_duplicate := false },
       { records := s.records ++
           [{ bronze_pdf_id := s.nextId
              case_id := cid1
              document_type := upperAscii dt1
              tax_year := ty1
              form_type := ft1
              storage_path := generate_storage_path cid1 dt1 fn1 ty1
              file_size_bytes := content.length
              file_name := fn1
              source_system := ss1
              source_url := su1
              processing_status := "stored"
              file_hash := hashFn content
              inserted_at := now1 }]
         objects := if generate_storage_path cid1 dt1 fn1 ty1 ∈ s.objects then
             s.objects else s.objects ++ [generate_storage_path cid1 dt1 fn1 ty1]
         nextId := s.nextId + 1 }) := by
    simp only [upload_pdf, hfresh]
  have hdup : check_duplicate
      (upload_pdf hashFn s content cid1 dt1 fn1 ss1 su1 ty1 ft1 now1).2
      (hashFn content) = some
      { bronze_pdf_id := s.nextId
        case_id := cid1
        document_type := upperAscii dt1
        tax_year := ty1
        form_type := ft1
        storage_path := generate_storage_path cid1 dt1 fn1 ty1
        file_size_bytes := content.length
        file_name := fn1
        source_system := ss1
        source_url := su1
        processing_status := "stored"
        file_hash := hashFn content
        inserted_at := now1 } := by
    rw [hcall1]
    simp only [check_duplicate] at hfresh ⊢
    simp [List.find?_append, hfresh]
  have hcall2 : upload_pdf hashFn
      (upload_pdf hashFn s content cid1 dt1 fn1 ss1 su1 ty1 ft1 now1).2
      content cid2 dt2 fn2 ss2 su2 ty2 ft2 now2 =
      ({ bronze_pdf_id := s.nextId
         storage_path := generate_storage_path cid1 dt1 fn1 ty1
         file_hash := none
         file_size_bytes := none
         is_duplicate := true },
       (upload_pdf hashFn s content cid1 dt1 fn1 ss1 su1 ty1 ft1 now1).2) := by
    rw [hcall1] at hdup ⊢
    simp only [upload_pdf, hdup]
  refine ⟨by rw [hcall2], by rw [hcall2, hcall1], by rw [hcall2, hcall1], by rw [hcall2], ?_⟩
  rw [hcall1]
  have hnil : s.records.filter (fun r => r.file_hash == hashFn content) = [] := by
    rw [List.filter_eq_nil_iff]
    intro a ha
    exact (List.find?_eq_none.mp hfresh) a ha
  simp [List.filter_append, hnil]

/-- Witness for C1: the dedup theorem applied at a concrete hash function,
an empty state, concrete content, and two calls differing in every name. -/
theorem upload_pdf_content_dedup_witness :
    check_duplicate { records := [], objects := [], nextId := 1 }
      ((fun bs => toString bs) [37, 80, 68, 70]) = none ∧
    ((upload_pdf (fun bs => toString bs)
        (upload_pdf (fun bs => toString bs)
          { records := [], objects := [], nextId := 1 }
          [37, 80, 68, 70] "1295022" "AT" "a.pdf" "casehelper" none none none
          "t1").2
        [37, 80, 68, 70] "999999" "wi" "b.pdf" "other" (some "http://x")
        (some "2021") (some "W-2") "t2").1.is_duplicate = true ∧
      (upload_pdf (fun bs => toString bs)
        (upload_pdf (fun bs => toString bs)
          { records := [], objects := [], nextId := 1 }
          [37, 80, 68, 70] "1295022" "AT" "a.pdf" "casehelper" none none none
          "t1").2
        [37, 80, 68, 70] "999999" "wi" "b.pdf" "other" (some "http://x")
        (some "2021") (some "W-2") "t2").1.bronze_pdf_id =
      (upload_pdf (fun bs => toString bs)
        { records := [], objects := [], nextId := 1 }
        [37, 80, 68, 70] "1295022" "AT" "a.pdf" "casehelper" none none none
        "t1").1.bronze_pdf_id ∧
      (upload_pdf (fun bs => toString bs)
        (upload_pdf (fun bs => toString bs)
          { records := [], objects := [], nextId := 1 }
          [37, 80, 68, 70] "1295022" "AT" "a.pdf" "casehelper" none none none
          "t1").2
        [37, 80, 68, 70] "999999" "wi" "b.pdf" "other" (some "http://x")
        (some "2021") (some "W-2") "t2").1.storage_path =
      (upload_pdf (fun bs => toString bs)
        { records := [], objects := [], nextId := 1 }
        [37, 80, 68, 70] "1295022" "AT" "a.pdf" "casehelper" none none none
        "t1").1.storage_path ∧
      (upload_pdf (fun bs => toString bs)
        (upload_pdf (fun bs => toString bs)
          { records := [], objects := [], nextId := 1 }
          [37, 80, 68, 70] "1295022" "AT" "a.pdf" "casehelper" none none none
          "t1").2
        [37, 80, 68, 70] "999999" "wi" "b.pdf" "other" (some "http://x")
        (some "2021") (some "W-2") "t2").2 =
      (upload_pdf (fun bs => toString bs)
        { records := [], objects := [], nextId := 1 }
        [37, 80, 68, 70] "1295022" "AT" "a.pdf" "casehelper" none none none
        "t1").2 ∧
      ((upload_pdf (fun bs => toString bs)
        { records := [], objects := [], nextId := 1 }
        [37, 80, 68, 70] "1295022" "AT" "a.pdf" "casehelper" none none none
        "t1").2.records.filter
          (fun r => r.file_hash == (fun bs => toString bs) [37, 80, 68, 70])).length = 1) :=
  ⟨rfl, upload_pdf_content_dedup (fun bs => toString bs)
    { records := [], objects := [], nextId := 1 } [37, 80, 68, 70]
    "1295022" "AT" "a.pdf" "casehelper" none none none "t1"
    "999999" "wi" "b.pdf" "other" (some "http://x") (some "2021") (some "W-2")
    "t2" rfl⟩

theorem monitor_foldl_alerts (rows : List HealthRow)
    (m : List (String × HealthMetric)) (a : List HealthAlert) :
    (rows.foldl
      (fun (acc : List (String × HealthMetric) × List HealthAlert) row =>
        (upsert acc.1 row.data_type (mkHealthMetric row), acc.2 ++ rowAlerts row))
      (m, a)).2 = a ++ rows.flatMap rowAlerts := by
  induction rows generalizing m a with
  | nil => simp
  | cons r rs ih => simp [ih, List.append_assoc]

theorem monitor_alerts_eq (rows : List HealthRow) :
    (monitor_bronze_silver_health rows).alerts = rows.flatMap rowAlerts := by
  simp [monitor_bronze_silver_health, monitor_foldl_alerts]

/-- C2: for every row of the staging summary, stage 1 of the health monitor
emits an alert for that row's source type exactly when `failed > 0`, or
`pending > 5`, or its health score `processed / total * 100` (100 when the
total is 0) is below 95; any such per-row alert makes the report's alert
list non-empty; in particular total=100, processed=94 gives score 94 with an
alert, and a (consistent) row with total=0 gives score 100 and no alert. -/
theorem stage_one_health_score_alerts (row : HealthRow) :
    (rowAlerts row ≠ [] ↔
      0 < row.bronze_failed ∨ 5 < row.bronze_pending ∨ healthScore row < 95) ∧
    (∀ rows : List HealthRow, row ∈ rows → rowAlerts row ≠ [] →
      (monitor_bronze_silver_health rows).alerts ≠ []) ∧
    healthScore { data_type := "AT", bronze_total := 100, bronze_processed := 94,
                  bronze_pending := 0, bronze_failed := 0, silver_records := 0 } = 94 ∧
    rowAlerts { data_type := "AT", bronze_total := 100, bronze_processed := 94,
                bronze_pending := 0, bronze_failed := 0, silver_records := 0 } ≠ [] ∧
    (row.bronze_total = 0 → healthScore row = 100) ∧
    (row.bronze_total = 0 → row.bronze_failed ≤ row.bronze_total →
      row.bronze_pending ≤ row.bronze_total → rowAlerts row = []) := by
  refine ⟨?_, ?_, by norm_num [healthScore], by norm_num [rowAlerts, healthScore], ?_, ?_⟩
  · unfold rowAlerts
    by_cases h1 : row.bronze_failed > 0 <;>
      by_cases h2 : row.bronze_pending > 5 <;>
      by_cases h3 : healthScore row < 95 <;>
      simp [h1, h2, h3]
  · intro rows hmem hne
    rw [monitor_alerts_eq]
    obtain ⟨alert, halert⟩ := List.exists_mem_of_ne_nil _ hne
    exact List.ne_nil_of_mem (List.mem_flatMap_of_mem hmem halert)
  · intro h0
    simp [healthScore, h0]
  · intro h0 hf hp
    rw [h0] at hf hp
    unfold rowAlerts
    have hscore : healthScore row = 100 := by simp [healthScore, h0]
    rw [hscore]
    simp [Nat.le_zero.mp hf, Nat.le_zero.mp hp]
    norm_num

/-- Witness for C2: the alert-propagation part applied to the single-row
summary with total=100, processed=94. -/
theorem stage_one_health_score_alerts_witness :
    (monitor_bronze_silver_health
      [{ data_type := "AT", bronze_total := 100, bronze_processed := 94,
         bronze_pending := 0, bronze_failed := 0, silver_records := 0 }]).alerts ≠ [] :=
  (stage_one_health_score_alerts
      { data_type := "AT", bronze_total := 100, bronze_processed := 94,
        bronze_pending := 0, bronze_failed := 0, silver_records := 0 }).2.1
    [{ data_type := "AT", bronze_total := 100, bronze_processed := 94,
       bronze_pending := 0, bronze_failed := 0, silver_records := 0 }]
    (List.mem_singleton.mpr rfl)
    (stage_one_health_score_alerts
      { data_type := "AT", bronze_total := 100, bronze_processed := 94,
        bronze_pending := 0, bronze_failed := 0, silver_records := 0 }).2.2.2.1

theorem upsert_of_not_mem {α : Type} (m : List (String × α)) (k : String) (v : α)
    (h : ∀ p ∈ m, p.1 ≠ k) : upsert m k v = m ++ [(k, v)] := by
  have hany : m.any (fun p => p.1 == k) = false := by
    rw [List.any_eq_false]
    intro p hp
    simpa using h p hp
  simp [upsert, hany]

theorem monitor_foldl_metrics (rows : List HealthRow)
    (m : List (String × HealthMetric)) (a : List HealthAlert)
    (hdisj : ∀ r ∈ rows, ∀ p ∈ m, p.1 ≠ r.data_type)
    (hnodup : (rows.map (fun r => r.data_type)).Nodup) :
    (rows.foldl
      (fun (acc : List (String × HealthMetric) × List HealthAlert) row =>
        (upsert acc.1 row.data_type (mkHealthMetric row), acc.2 ++ rowAlerts row))
      (m, a)).1 = m ++ rows.map (fun r => (r.data_type, mkHealthMetric r)) := by
  induction rows generalizing m a with
  | nil => simp
  | cons r rs ih =>
    simp only [List.map_cons, List.nodup_cons, List.mem_map] at hnodup
    simp only [List.foldl_cons]
    have hup : upsert m r.data_type (mkHealthMetric r) = m ++ [(r.data_type, mkHealthMetric r)] :=
      upsert_of_not_mem m r.data_type (mkHealthMetric r)
        (fun p hp => hdisj r (List.mem_cons_self r rs) p hp)
    have hdisj' : ∀ r' ∈ rs, ∀ p ∈ m ++ [(r.data_type, mkHealthMetric r)],
        p.1 ≠ r'.data_type := by
      intro r' hr' p hp
      rcases List.mem_append.mp hp with hp' | hp'
      · exact hdisj r' (List.mem_cons_of_mem r hr') p hp'
      · have : p = (r.data_type, mkHealthMetric r) := by simpa using hp'
        rw [this]
        intro hcontra
        exact hnodup.1 ⟨r', hr', hcontra.symm⟩
    rw [hup] at *
    rw [ih (m ++ [(r.data_type, mkHealthMetric r)]) (a ++ rowAlerts r) hdisj' hnodup.2]
    simp

/-- C9: a staging summary can be simultaneously `HEALTHY` overall and carry
alerts: the single row total=120, processed=114, pending=6, failed=0 has
health score exactly 95, so the overall verdict is `HEALTHY`, yet a pending
backlog of 6 raises an alert; in general, for distinct source types the
overall verdict is `HEALTHY` exactly when every row's health score is at
least 95 — failed and pending counts do not enter the verdict. -/
theorem stage_one_healthy_with_alerts :
    (monitor_bronze_silver_health
      [{ data_type := "AT", bronze_total := 120, bronze_processed := 114,
         bronze_pending := 6, bronze_failed := 0,
         silver_records := 100 }]).overall_health = "HEALTHY" ∧
    (monitor_bronze_silver_health
      [{ data_type := "AT", bronze_total := 120, bronze_processed := 114,
         bronze_pending := 6, bronze_failed := 0,
         silver_records := 100 }]).alerts ≠ [] ∧
    ∀ rows : List HealthRow, (rows.map (fun r => r.data_type)).Nodup →
      ((monitor_bronze_silver_health rows).overall_health = "HEALTHY" ↔
        ∀ r ∈ rows, 95 ≤ healthScore r) := by
  have hscore : healthScore
      { data_type := "AT", bronze_total := 120, bronze_processed := 114,
        bronze_pending := 6, bronze_failed := 0, silver_records := 100 } = 95 := by
    norm_num [healthScore]
  refine ⟨?_, ?_, ?_⟩
  · simp [monitor_bronze_silver_health, upsert, mkHealthMetric, hscore]
  · simp only [monitor_bronze_silver_health, List.foldl_cons, List.foldl_nil]
    simp [rowAlerts, hscore]
  · intro rows hnd
    have hm := monitor_foldl_metrics rows [] []
      (fun r _ p hp => absurd hp (List.not_mem_nil p)) hnd
    simp only [monitor_bronze_silver_health]
    rw [hm]
    simp only [List.nil_append]
    split
    next h =>
      refine ⟨fun _ r hr => ?_, fun _ => rfl⟩
      have := List.all_eq_true.mp h _ (List.mem_map_of_mem _ hr)
      simpa [mkHealthMetric] using this
    next h =>
      constructor
      · intro hcontra
        exact absurd hcontra (by decide)
      · intro hforall
        exfalso
        apply h
        rw [List.all_eq_true]
        intro x hx
        rcases List.mem_map.mp hx with ⟨r, hr, rfl⟩
        simpa [mkHealthMetric] using hforall r hr

/-- Witness for C9: the general verdict equivalence applied to the concrete
one-row summary with health score exactly 95. -/
theorem stage_one_healthy_with_alerts_witness :
    ((monitor_bronze_silver_health
      [{ data_type := "AT", bronze_total := 120, bronze_processed := 114,
         bronze_pending := 6, bronze_failed := 0,
         silver_records := 100 }]).overall_health = "HEALTHY" ↔
      ∀ r ∈ [({ data_type := "AT", bronze_total := 120, bronze_processed := 114,
                bronze_pending := 6, bronze_failed := 0,
                silver_records := 100 } : HealthRow)], 95 ≤ healthScore r) :=
  stage_one_healthy_with_alerts.2.2
    [{ data_type := "AT", bronze_total := 120, bronze_processed := 114,
       bronze_pending := 6, bronze_failed := 0, silver_records := 100 }]
    (by simp)

/-- Counterexample to C3: store a record (pending), mark it completed, then
mark it failed — `mark_as_processed` overwrites the status unconditionally,
so the record transitions directly from `completed` to `failed` with no
intervening replay, contradicting the claim that `completed → failed` never
happens. -/
theorem mark_overwrites_terminal_status :
    ((markUpdate (storeUpdate [] "CASE-001" "{}" none "system" 0 1)
        1 .completed none 1).map (fun r => r.processing_status)) =
      [ProcessingStatus.completed] ∧
    ((markUpdate
        (markUpdate (storeUpdate [] "CASE-001" "{}" none "system" 0 1)
          1 .completed none 1)
        1 .failed (some "silver trigger error") 2).map
      (fun r => r.processing_status)) = [ProcessingStatus.failed] :=
  ⟨rfl, rfl⟩

/-- C3 (amended): every status a store / mark-as-processed / replay operation
writes is either `pending` (store inserts pending records, replay resets
exactly the matched records to pending) or the status passed to
mark-as-processed — which overwrites the target's previous status
unconditionally, so `pending → completed`, `pending → failed` and (via
replay) `{completed, failed} → pending` hold as claimed, but repeated
marking can also transition a record directly `completed ↔ failed`. -/
theorem processing_status_transitions (t : List BronzeRecord)
    (case_id raw_response : String) (api_endpoint : Option String)
    (created_by : String) (now nextId : Nat) (bronze_id : Nat)
    (status : ProcessingStatus) (error : Option String)
    (bid : Option Nat) (cid : Option String) :
    (storeUpdate t case_id raw_response api_endpoint created_by now nextId).map
        (fun r => r.processing_status) =
      t.map (fun r => r.processing_status) ++ [ProcessingStatus.pending] ∧
    (markUpdate t bronze_id status error now).map (fun r => r.processing_status) =
      t.map (fun r => if r.bronze_id = bronze_id then status
                      else r.processing_status) ∧
    (replayUpdate t bid cid).map (fun r => r.processing_status) =
      t.map (fun r => if replayMatches bid cid r then ProcessingStatus.pending
                      else r.processing_status) := by
  refine ⟨by simp [storeUpdate, storeRecord], ?_, ?_⟩
  · simp only [markUpdate, List.map_map]
    congr 1
    funext r
    by_cases h : r.bronze_id = bronze_id <;> simp [h]
  · simp only [replayUpdate, List.map_map]
    congr 1
    funext r
    by_cases h : replayMatches bid cid r <;> simp [h, resetForReplay]

/-- Counterexample to C5: with the backing store unreachable, the get /
list / mark / summary / replay operations do not surface any error — each
catches the exception and returns a success-shaped default (`None`, `[]`,
`False`, `{}`, `0`), indistinguishable from a successful call on an
empty store. -/
theorem storage_unavailable_swallowed :
    get_bronze_record false [] 1 = .ok none ∧
    get_bronze_by_case false [] "1295022" 10 = .ok [] ∧
    mark_as_processed false [] 1 .completed none 0 = .ok ([], false) ∧
    get_processing_summary false [] = .ok [] ∧
    replay_bronze_to_silver false [] none none = .ok ([], 0) :=
  ⟨rfl, rfl, rfl, rfl, rfl⟩

/-- C5 (amended): when the backing store is unreachable, only the store
operation surfaces the failure as a raised error (`Bronze storage failed
for …`); `get_bronze_record` returns `None`, `get_bronze_by_case` returns
`[]`, `mark_as_processed` returns `False`, `get_processing_summary`
returns `{}`, and `replay_bronze_to_silver` returns `0` — each swallows the
exception into a success-shaped default value and leaves the table
untouched. -/
theorem storage_unavailable_behavior (t : List BronzeRecord)
    (case_id raw_response : String) (api_endpoint : Option String)
    (created_by : String) (now nextId bronze_id : Nat)
    (status : ProcessingStatus) (error : Option String)
    (cid : String) (limit : Nat) (rows : List IngestionSummaryRow)
    (bidO : Option Nat) (cidO : Option String) :
    store_at_response false t case_id raw_response api_endpoint created_by
        now nextId =
      .error ("Bronze storage failed for AT: " ++ storageUnavailableMsg) ∧
    get_bronze_record false t bronze_id = .ok none ∧
    get_bronze_by_case false t cid limit = .ok [] ∧
    mark_as_processed false t bronze_id status error now = .ok (t, false) ∧
    get_processing_summary false rows = .ok [] ∧
    replay_bronze_to_silver false t bidO cidO = .ok (t, 0) :=
  ⟨rfl, rfl, rfl, rfl, rfl, rfl⟩

/-- C7: replay with a specific-id selector resets exactly the records with
that id to pending with error and processed-timestamp cleared (others are
kept unchanged); with a case selector it does so for exactly that case's
records; with no selector for exactly the currently-failed records; the
returned count is the number of matching records; and a subsequent
mark-as-processed to completed succeeds on the replayed record and sets it
to completed. -/
theorem replay_bronze_to_silver_correct (t : List BronzeRecord)
    (bid : Nat) (cid : String) (now : Nat) :
    (∀ r ∈ t,
      (r.bronze_id = bid → resetForReplay r ∈ replayUpdate t (some bid) none) ∧
      (r.bronze_id ≠ bid → r ∈ replayUpdate t (some bid) none)) ∧
    (∀ r ∈ t,
      (r.case_id = cid → resetForReplay r ∈ replayUpdate t none (some cid)) ∧
      (r.case_id ≠ cid → r ∈ replayUpdate t none (some cid))) ∧
    (∀ r ∈ t,
      (r.processing_status = .failed →
        resetForReplay r ∈ replayUpdate t none none) ∧
      (r.processing_status ≠ .failed → r ∈ replayUpdate t none none)) ∧
    (∀ r : BronzeRecord, (resetForReplay r).processing_status = .pending ∧
      (resetForReplay r).processing_error = none ∧
      (resetForReplay r).processed_at = none) ∧
    replayCount t (some bid) none =
      (t.filter (fun r => r.bronze_id == bid)).length ∧
    replayCount t none (some cid) =
      (t.filter (fun r => r.case_id == cid)).length ∧
    replayCount t none none =
      (t.filter (fun r => r.processing_status == .failed)).length ∧
    (markUpdate (replayUpdate t (some bid) none) bid .completed none now).map
        (fun r => r.processing_status) =
      t.map (fun r => if r.bronze_id = bid then ProcessingStatus.completed
                      else r.processing_status) ∧
    mark_as_processed true (replayUpdate t (some bid) none) bid .completed none
        now =
      .ok (markUpdate (replayUpdate t (some bid) none) bid .completed none now,
        true) := by
  refine ⟨?_, ?_, ?_, fun r => ⟨rfl, rfl, rfl⟩, rfl, rfl, rfl, ?_, rfl⟩
  · intro r hr
    constructor
    · intro h
      refine List.mem_map.mpr ⟨r, hr, ?_⟩
      simp [replayMatches, h]
    · intro h
      refine List.mem_map.mpr ⟨r, hr, ?_⟩
      simp [replayMatches, h]
  · intro r hr
    constructor
    · intro h
      refine List.mem_map.mpr ⟨r, hr, ?_⟩
      simp [replayMatches, h]
    · intro h
      refine List.mem_map.mpr ⟨r, hr, ?_⟩
      simp [replayMatches, h]
  · intro r hr
    constructor
    · intro h
      refine List.mem_map.mpr ⟨r, hr, ?_⟩
      simp [replayMatches, h]
    · intro h
      refine List.mem_map.mpr ⟨r, hr, ?_⟩
      simp [replayMatches, h]
  · simp only [markUpdate, replayUpdate, List.map_map]
    congr 1
    funext r
    by_cases h : r.bronze_id = bid <;>
      simp [replayMatches, resetForReplay, h]

/-- Witness for C7: a single failed record is reset by a specific-id replay
and then successfully marked completed. -/
theorem replay_bronze_to_silver_correct_witness :
    (resetForReplay
      { bronze_id := 1, case_id := "1295022", raw_response := "{}",
        api_endpoint := "/analysis/at", created_by := "system",
        processing_status := .failed, processing_error := some "boom",
        inserted_at := 0, processed_at := some 5 } ∈
      replayUpdate
        [{ bronze_id := 1, case_id := "1295022", raw_response := "{}",
           api_endpoint := "/analysis/at", created_by := "system",
           processing_status := .failed, processing_error := some "boom",
           inserted_at := 0, processed_at := some 5 }] (some 1) none) ∧
    (markUpdate
        (replayUpdate
          [{ bronze_id := 1, case_id := "1295022", raw_response := "{}",
             api_endpoint := "/analysis/at", created_by := "system",
             processing_status := .failed, processing_error := some "boom",
             inserted_at := 0, processed_at := some 5 }] (some 1) none)
        1 .completed none 9).map (fun r => r.processing_status) =
      [({ bronze_id := 1, case_id := "1295022", raw_response := "{}",
          api_endpoint := "/analysis/at", created_by := "system",
          processing_status := .failed, processing_error := some "boom",
          inserted_at := 0, processed_at := some 5 } : BronzeRecord)].map
        (fun r => if r.bronze_id = 1 then ProcessingStatus.completed
                  else r.processing_status) :=
  ⟨((replay_bronze_to_silver_correct
      [{ bronze_id := 1, case_id := "1295022", raw_response := "{}",
         api_endpoint := "/analysis/at", created_by := "system",
         processing_status := .failed, processing_error := some "boom",
         inserted_at := 0, processed_at := some 5 }] 1 "1295022" 9).1
      { bronze_id := 1, case_id := "1295022", raw_response := "{}",
        api_endpoint := "/analysis/at", created_by := "system",
        processing_status := .failed, processing_error := some "boom",
        inserted_at := 0, processed_at := some 5 }
      (List.mem_singleton.mpr rfl)).1 rfl,
   (replay_bronze_to_silver_correct
      [{ bronze_id := 1, case_id := "1295022", raw_response := "{}",
         api_endpoint := "/analysis/at", created_by := "system",
         processing_status := .failed, processing_error := some "boom",
         inserted_at := 0, processed_at := some 5 }] 1 "1295022" 9).2.2.2.2.2.2.2.1⟩

/-- Counterexample to C4: an evaluation that finds zero new work units
returns its `SkipReason` before reaching `update_cursor`, so the persisted
cursor stays at its old value instead of advancing to the current time —
the cursor is not strictly increasing across a quiet evaluation. -/
theorem sensor_quiet_evaluation_keeps_cursor :
    new_case_sensor (some "2024-06-01T00:00:00Z") [] "2024-06-02T00:00:00" =
      (.skip "No new cases since 2024-06-01T00:00:00Z",
       some "2024-06-01T00:00:00Z") :=
  rfl

/-- C4 (amended): the sensor advances its cursor to the current time only
when at least one new work unit is found; an evaluation with zero new work
units yields an explicit no-op `SkipReason` and leaves the cursor unchanged;
each emitted trigger request is keyed `case_{id}` by its work unit's id (so
the run-key mechanism deduplicates a re-trigger of a unit still in
flight). -/
theorem new_case_sensor_behavior (cursor : Option String)
    (new_cases : List NewCase) (now : String) :
    (new_cases = [] →
      new_case_sensor cursor new_cases now =
        (.skip ("No new cases since " ++ cursor.getD "2024-01-01T00:00:00Z"),
         cursor)) ∧
    (new_cases ≠ [] →
      new_case_sensor cursor new_cases now =
        (.requests (new_cases.map runRequestFor), some (now ++ "Z"))) ∧
    ((new_cases.map runRequestFor).map (fun rq => rq.run_key) =
      new_cases.map (fun c => "case_" ++ c.id)) := by
  refine ⟨?_, ?_, ?_⟩
  · intro h
    subst h
    rfl
  · intro h
    obtain ⟨a, as, rfl⟩ := List.exists_cons_of_ne_nil h
    rfl
  · rw [List.map_map]
    rfl

/-- Witness for C4 (amended): one new case produces trigger requests and
advances the cursor; the quiet branch is exercised by the counterexample. -/
theorem new_case_sensor_behavior_witness :
    new_case_sensor none [{ id := "42", case_number := "CASE-42" }]
        "2025-01-01T00:00:00" =
      (.requests ([({ id := "42", case_number := "CASE-42" } : NewCase)].map
          runRequestFor),
       some ("2025-01-01T00:00:00" ++ "Z")) :=
  (new_case_sensor_behavior none [{ id := "42", case_number := "CASE-42" }]
      "2025-01-01T00:00:00").2.1 (by simp)

/-- Counterexample to C6: when the optional WI source fetch fails, the WI
asset returns `skipped` but `processing_error = None` — the fetch error
string appears only in the log, not in the asset's result, contrary to the
claim that the error is recorded in the result of every optional asset. -/
theorem bronze_wi_data_error_not_recorded :
    (bronze_wi_data (.error "connect timeout") "1295022" "CASE-1295022"
      [] 1).1.processing_status = "skipped" ∧
    (bronze_wi_data (.error "connect timeout") "1295022" "CASE-1295022"
      [] 1).1.processing_error = none ∧
    (bronze_wi_data (.error "connect timeout") "1295022" "CASE-1295022"
      [] 1).2 = [] :=
  ⟨rfl, rfl, rfl⟩

/-- C6 (amended): on a fetch failure of its optional source, each asset
returns status `skipped` with `bronze_id = None`, stores nothing in its
bronze table, and does not raise; the Interview asset records the fetch
error in `processing_error` (`API error: …`), while the WI asset returns
`processing_error = None` (the error is only logged). -/
theorem optional_source_skip_behavior (e : String)
    (case_id case_number : String) (tw : List WiBronzeRow)
    (ti : List InterviewBronzeRow) (nid : Nat) :
    bronze_wi_data (.error e) case_id case_number tw nid =
      ({ bronze_id := none, case_id := case_id, case_number := case_number,
         form_count := 0, processing_status := "skipped",
         processing_error := none }, tw) ∧
    bronze_interview_data (.error e) case_id case_number ti nid =
      ({ bronze_id := none, case_id := case_id, case_number := case_number,
         sections_received := [], processing_status := "skipped",
         processing_error := some ("API error: " ++ e) }, ti) :=
  ⟨rfl, rfl⟩

/-- C8: the overall extraction status is always one of the four states, and
is determined by the per-layer counts: `not_started` exactly when the bronze
(staged) count is 0; `bronze_only` (the spec's `staged_only`) exactly when
bronze records exist but no silver (derived) records; `silver_only` (the
spec's `partially_propagated`) exactly when bronze and silver records exist
but no gold records; `complete` exactly when all three layers have
records. -/
theorem get_extraction_status_cases (c : LayerCounts) :
    (extractionStatus c = "not_started" ∨ extractionStatus c = "bronze_only" ∨
     extractionStatus c = "silver_only" ∨ extractionStatus c = "complete") ∧
    (extractionStatus c = "not_started" ↔ bronzeCount c = 0) ∧
    (extractionStatus c = "bronze_only" ↔
      0 < bronzeCount c ∧ silverCount c = 0) ∧
    (extractionStatus c = "silver_only" ↔
      0 < bronzeCount c ∧ 0 < silverCount c ∧ goldCount c = 0) ∧
    (extractionStatus c = "complete" ↔
      0 < bronzeCount c ∧ 0 < silverCount c ∧ 0 < goldCount c) := by
  unfold extractionStatus
  by_cases h1 : bronzeCount c = 0 <;> by_cases h2 : silverCount c = 0 <;>
    by_cases h3 : goldCount c = 0 <;>
    simp [h1, h2, h3] <;> omega

end Medallion
